import Mathlib

/-!
Verification of the dao-data-ai multi-source sentiment aggregation pipeline.

The Python sources are shallowly embedded: floats become `ℚ` (the code only
adds, multiplies, divides and compares scores, so exact rational arithmetic
captures the intended semantics), the external VADER and TextBlob models are
parameters (`VaderModel`, `BlobModel`: pure functions from the text to the
model outputs), and each analyzer class becomes a namespace whose methods are
functions taking those model parameters explicitly.

`np.std` returns the square root of the mean squared deviation; to stay in
exact arithmetic the embedding carries that mean squared deviation (the field
is named `std_sentiment_sq`): two aggregates have equal `np.std` values
exactly when their `std_sentiment_sq` values are equal.
-/

/-- Output of `SentimentIntensityAnalyzer.polarity_scores`: compound in
[-1,1] plus pos/neu/neg proportions. -/
structure VaderScores where
  compound : ℚ
  pos : ℚ
  neu : ℚ
  neg : ℚ
deriving DecidableEq, Repr

/-- The VADER model as a pure function of the text. -/
abbrev VaderModel := String → VaderScores

/-- The TextBlob model as a pure function of the text, returning
(polarity, subjectivity). -/
abbrev BlobModel := String → ℚ × ℚ

/-- Python `str.strip()`: the characters of the string with leading and
trailing whitespace removed. -/
def pyStrip (s : String) : List Char :=
  ((s.data.dropWhile Char.isWhitespace).reverse.dropWhile
    Char.isWhitespace).reverse

/-- Arithmetic mean of a list of rationals (`np.mean`); 0 on the empty list
(every call site guards against the empty list). -/
def listMean (xs : List ℚ) : ℚ := xs.sum / xs.length

/-- Mean squared deviation from the mean: the square of `np.std`. -/
def listVarPop (xs : List ℚ) : ℚ :=
  listMean (xs.map (fun x => (x - listMean xs) ^ 2))

namespace CombinedSentimentEngine

/-- The dict returned by `CombinedSentimentEngine.analyze_text`
(src/lib/sentiment_engine.py). -/
structure SentimentScore where
  vader_compound : ℚ
  vader_pos : ℚ
  vader_neu : ℚ
  vader_neg : ℚ
  textblob_polarity : ℚ
  textblob_subjectivity : ℚ
  combined_score : ℚ
  sentiment : String
  confidence : ℚ
deriving DecidableEq, Repr

/-- The fixed neutral score returned for empty or whitespace-only text. -/
def neutralScore : SentimentScore :=
  { vader_compound := 0, vader_pos := 0, vader_neu := 1, vader_neg := 0
    textblob_polarity := 0, textblob_subjectivity := 0
    combined_score := 0, sentiment := "neutral", confidence := 0 }

/-- `CombinedSentimentEngine.analyze_text` (src/lib/sentiment_engine.py,
lines 18-58). `not text or not text.strip()` is
`text = "" ∨ pyStrip text = []`. -/
def analyze_text ( v : VaderModel) ( b : BlobModel) (text : String) :
    SentimentScore :=
  if text = "" ∨ pyStrip text = [] then neutralScore
  else
    let vs := v text
    let polarity := (b text).1
    let subjectivity := (b text).2
    let combined_score := (VaderScores.compound vs + polarity) / 2
    let label :=
      if combined_score ≥ 1/5 then "positive"
      else if combined_score ≤ -(1/5) then "negative"
      else "neutral"
    { vader_compound := VaderScores.compound vs
      vader_pos := VaderScores.pos vs
      vader_neu := VaderScores.neu vs
      vader_neg := VaderScores.neg vs
      textblob_polarity := polarity
      textblob_subjectivity := subjectivity
      combined_score := combined_score
      sentiment := label
      confidence := |combined_score| }

/-- The dict returned by `CombinedSentimentEngine.aggregate_scores`
(src/lib/sentiment_engine.py, lines 60-95). `std_sentiment_sq` is the square
of the returned `std_sentiment` (see the file header). -/
structure AggregateScores where
  avg_sentiment : ℚ
  std_sentiment_sq : ℚ
  positive_ratio : ℚ
  negative_ratio : ℚ
  neutral_ratio : ℚ
  total_messages : ℕ
  sentiment_trend : String
deriving DecidableEq, Repr

/-- The empty-input aggregate of `aggregate_scores` (lines 62-71). -/
def emptyAggregate : AggregateScores :=
  { avg_sentiment := 0, std_sentiment_sq := 0
    positive_ratio := 0, negative_ratio := 0, neutral_ratio := 0
    total_messages := 0, sentiment_trend := "neutral" }

/-- `CombinedSentimentEngine.aggregate_scores` (src/lib/sentiment_engine.py,
lines 60-95). `combined_scores[-1]` is `getLastD` (the list is non-empty in
that branch, so the default is never used). -/
def aggregate_scores (scores : List SentimentScore) : AggregateScores :=
  if scores = [] then emptyAggregate
  else
    let sentiments := scores.map SentimentScore.sentiment
    let combined_scores := scores.map SentimentScore.combined_score
    let positive_count := sentiments.count "positive"
    let negative_count := sentiments.count "negative"
    let neutral_count := sentiments.count "neutral"
    let total := sentiments.length
    let avg := listMean combined_scores
    let last_score := combined_scores.getLastD 0
    let trend := if last_score > avg then "improving" else "declining"
    { avg_sentiment := avg
      std_sentiment_sq := listVarPop combined_scores
      positive_ratio := (positive_count : ℚ) / (total : ℚ)
      negative_ratio := (negative_count : ℚ) / (total : ℚ)
      neutral_ratio := (neutral_count : ℚ) / (total : ℚ)
      total_messages := total
      sentiment_trend := trend }

end CombinedSentimentEngine

/-- The keys of a Python dict in insertion order: first occurrence of each
value in the list. Models iteration order of dicts built with
`setdefault`-style grouping. -/
def firstOccurrences {α : Type} [DecidableEq α] (l : List α) : List α :=
  l.foldl (fun acc a => if a ∈ acc then acc else acc ++ [a]) []

/-- `x or "unknown"` on an optional string: `None`, a missing key and the
empty string (all falsy in Python) map to `"unknown"`. -/
def orUnknown (a : Option String) : String :=
  match a with
  | none => "unknown"
  | some s => if s = "" then "unknown" else s

namespace ForumSentimentAnalyzer

/-- A forum post as consumed by `ForumSentimentAnalyzer.aggregate_messages`:
`m.get("content", "")` and `m.get("author")`. A missing author key and
`None` are both `none`. -/
structure ForumMessage where
  content : String
  author : Option String
deriving DecidableEq, Repr

/-- One entry of `top_positive_authors`. -/
structure AuthorStat where
  author : String
  avg_sentiment : ℚ
  message_count : ℕ
deriving DecidableEq, Repr

/-- The dict returned by `ForumSentimentAnalyzer.aggregate_messages`
(src/data_collection/forum_sentiment_analyzer.py): the engine aggregate
(`base`) updated with the forum-specific keys. -/
structure ForumAggregate where
  base : CombinedSentimentEngine.AggregateScores
  unique_authors : ℕ
  avg_posts_per_author : ℚ
  top_positive_authors : List AuthorStat
deriving DecidableEq, Repr

/-- `df["author"].nunique()` behind `if "author" in df.columns else 0`:
the number of distinct non-missing author values (pandas `nunique` skips
NaN; when no message carries the key the column is absent and the result
is 0, which coincides with counting over the empty list). -/
def unique_authors (messages : List ForumMessage) : ℕ :=
  (firstOccurrences (messages.filterMap ForumMessage.author)).length

/-- `ForumSentimentAnalyzer.aggregate_messages`
(src/data_collection/forum_sentiment_analyzer.py, lines 23-69). Scores every
message (no length filter), aggregates through the engine, then attaches
forum-specific metrics. The `author_sentiments` dict keyed with
`msg.get("author") or "unknown"` is modelled by grouping the zipped
(message, score) pairs over the authors in first-occurrence order;
`sorted(..., reverse=True)` (stable, descending) is `insertionSort` with the
strict greater-than relation. -/
def aggregate_messages ( v : VaderModel) ( b : BlobModel)
    (messages : List ForumMessage) : ForumAggregate :=
  if messages = [] then
    { base := CombinedSentimentEngine.emptyAggregate
      unique_authors := 0
      avg_posts_per_author := 0
      top_positive_authors := [] }
  else
    let scores := messages.map (fun m =>
      CombinedSentimentEngine.analyze_text v b (ForumMessage.content m))
    let aggregated := CombinedSentimentEngine.aggregate_scores scores
    let pairs := List.zip messages scores
    let authors := firstOccurrences
      (pairs.map (fun p => orUnknown (ForumMessage.author p.1)))
    let stats := authors.map (fun a =>
      let vals := pairs.filterMap (fun p =>
        if orUnknown (ForumMessage.author p.1) = a then
          some (CombinedSentimentEngine.SentimentScore.combined_score p.2)
        else none)
      { author := a
        avg_sentiment := vals.sum / (vals.length : ℚ)
        message_count := vals.length : AuthorStat })
    let top_positive := (List.insertionSort
      (fun x y => AuthorStat.avg_sentiment y < AuthorStat.avg_sentiment x)
      stats).take 3
    { base := aggregated
      unique_authors := unique_authors messages
      avg_posts_per_author :=
        if unique_authors messages = 0 then 0
        else (messages.length : ℚ) / (unique_authors messages : ℚ)
      top_positive_authors := top_positive }

end ForumSentimentAnalyzer

namespace TwitterSentimentAnalyzer

/-- A tweet as consumed by `TwitterSentimentAnalyzer.aggregate_messages`:
`t.get("text", "")`, `t.get("author_id")`, `t.get("likes", 0)`,
`t.get("retweets", 0)`. -/
structure Tweet where
  text : String
  author_id : Option String
  likes : ℕ
  retweets : ℕ
deriving DecidableEq, Repr

/-- `likes + retweets` of one tweet. -/
def engagement (t : Tweet) : ℕ := Tweet.likes t + Tweet.retweets t

/-- One entry of `influential_accounts`. -/
structure InfluentialAccount where
  author : String
  avg_sentiment : ℚ
  total_engagement : ℕ
  tweet_count : ℕ
  influence_score : ℚ
deriving DecidableEq, Repr

/-- The dict returned by `TwitterSentimentAnalyzer.aggregate_messages`
(src/data_collection/twitter_sentiment_analyzer.py). `std_sentiment_sq` is
the square of the returned `std_sentiment` (see the file header). -/
structure TwitterAggregate where
  avg_sentiment : ℚ
  std_sentiment_sq : ℚ
  positive_ratio : ℚ
  negative_ratio : ℚ
  neutral_ratio : ℚ
  total_tweets : ℕ
  total_engagement : ℕ
  avg_engagement_per_tweet : ℚ
  influential_accounts : List InfluentialAccount
deriving DecidableEq, Repr

/-- `TwitterSentimentAnalyzer._get_influential_accounts`
(src/data_collection/twitter_sentiment_analyzer.py, lines 92-124): group the
(tweet, score) pairs by `tw.get("author_id") or "unknown"` in
first-occurrence order, compute per-account metrics, sort by
`influence_score` descending (stable) and keep the top 5. -/
def get_influential_accounts (tweets : List Tweet)
    (scores : List CombinedSentimentEngine.SentimentScore) :
    List InfluentialAccount :=
  let pairs := List.zip tweets scores
  let authors := firstOccurrences
    (pairs.map (fun p => orUnknown (Tweet.author_id p.1)))
  let influential := authors.map (fun a =>
    let rel := pairs.filter (fun p =>
      orUnknown (Tweet.author_id p.1) == a)
    let avg_s := listMean (rel.map (fun p =>
      CombinedSentimentEngine.SentimentScore.combined_score p.2))
    let total_e := (rel.map (fun p => engagement p.1)).sum
    { author := a
      avg_sentiment := avg_s
      total_engagement := total_e
      tweet_count := rel.length
      influence_score := avg_s * ((total_e : ℚ) / 100) : InfluentialAccount })
  (List.insertionSort
    (fun x y =>
      InfluentialAccount.influence_score y < InfluentialAccount.influence_score x)
    influential).take 5

/-- `TwitterSentimentAnalyzer.aggregate_messages`
(src/data_collection/twitter_sentiment_analyzer.py, lines 29-90). No length
filter: every tweet is scored. `max(engagements) or 1` is the fold of `max`
(engagement counts are naturals, so seeding with 0 agrees with Python `max`
on a non-empty list) with 0 replaced by 1. -/
def aggregate_messages ( v : VaderModel) ( b : BlobModel)
    (tweets : List Tweet) : TwitterAggregate :=
  if tweets = [] then
    { avg_sentiment := 0
      std_sentiment_sq := 0
      positive_ratio := 0
      negative_ratio := 0
      neutral_ratio := 0
      total_tweets := 0
      total_engagement := 0
      avg_engagement_per_tweet := 0
      influential_accounts := [] }
  else
    let scores := tweets.map (fun t =>
      CombinedSentimentEngine.analyze_text v b (Tweet.text t))
    let engagements := tweets.map engagement
    let max_engagement₀ := engagements.foldl max 0
    let max_engagement := if max_engagement₀ = 0 then 1 else max_engagement₀
    let weights := engagements.map
      (fun (e : ℕ) => (e : ℚ) / (max_engagement : ℚ))
    let combined_scores := scores.map
      CombinedSentimentEngine.SentimentScore.combined_score
    let weighted_scores := List.zipWith (fun cs w => cs * w)
      combined_scores weights
    let positive_count := scores.countP (fun s =>
      CombinedSentimentEngine.SentimentScore.sentiment s == "positive")
    let negative_count := scores.countP (fun s =>
      CombinedSentimentEngine.SentimentScore.sentiment s == "negative")
    let neutral_count := scores.countP (fun s =>
      CombinedSentimentEngine.SentimentScore.sentiment s == "neutral")
    let total := scores.length
    let total_engagement := engagements.sum
    { avg_sentiment := listMean weighted_scores
      std_sentiment_sq := listVarPop weighted_scores
      positive_ratio := (positive_count : ℚ) / (total : ℚ)
      negative_ratio := (negative_count : ℚ) / (total : ℚ)
      neutral_ratio := (neutral_count : ℚ) / (total : ℚ)
      total_tweets := total
      total_engagement := total_engagement
      avg_engagement_per_tweet :=
        if total = 0 then 0 else (total_engagement : ℚ) / (total : ℚ)
      influential_accounts := get_influential_accounts tweets scores }

end TwitterSentimentAnalyzer

namespace DiscordAnalyzer

/-- A Discord message as consumed by `DiscordAnalyzer.analyze_thread`:
`msg.get('content', '')`. -/
structure DiscordMessage where
  content : String
deriving DecidableEq, Repr

/-- The dict returned by `DiscordAnalyzer.analyze_sentiment`
(src/data_collection/discord_analyzer.py, lines 17-47). -/
structure DiscordScore where
  vader_compound : ℚ
  vader_pos : ℚ
  vader_neu : ℚ
  vader_neg : ℚ
  textblob_polarity : ℚ
  textblob_subjectivity : ℚ
  combined_score : ℚ
  sentiment : String
deriving DecidableEq, Repr

/-- `DiscordAnalyzer.analyze_sentiment`
(src/data_collection/discord_analyzer.py, lines 17-47): unweighted average
of the two models, classified with the inclusive ±0.2 thresholds. -/
def analyze_sentiment ( v : VaderModel) ( b : BlobModel) (text : String) :
    DiscordScore :=
  let vader_scores := v text
  let textblob_polarity := (b text).1
  let textblob_subjectivity := (b text).2
  let combined_score := (VaderScores.compound vader_scores +
    textblob_polarity) / 2
  let sentiment_label :=
    if combined_score ≥ 1/5 then "positive"
    else if combined_score ≤ -(1/5) then "negative"
    else "neutral"
  { vader_compound := VaderScores.compound vader_scores
    vader_pos := VaderScores.pos vader_scores
    vader_neu := VaderScores.neu vader_scores
    vader_neg := VaderScores.neg vader_scores
    textblob_polarity := textblob_polarity
    textblob_subjectivity := textblob_subjectivity
    combined_score := combined_score
    sentiment := sentiment_label }

/-- `DiscordAnalyzer._classify_overall`
(src/data_collection/discord_analyzer.py, lines 98-109). -/
def classify_overall (score : ℚ) : String :=
  if score ≥ 3/10 then "very_positive"
  else if score ≥ 1/10 then "positive"
  else if score ≤ -(3/10) then "very_negative"
  else if score ≤ -(1/10) then "negative"
  else "neutral"

/-- `DiscordAnalyzer._calculate_engagement`
(src/data_collection/discord_analyzer.py, lines 111-123): bucket by the raw
(pre-filter) message count. -/
def calculate_engagement (count : ℕ) : String :=
  if count ≥ 100 then "very_high"
  else if count ≥ 50 then "high"
  else if count ≥ 20 then "medium"
  else if count ≥ 5 then "low"
  else "very_low"

/-- The dict returned by `DiscordAnalyzer.analyze_thread`
(src/data_collection/discord_analyzer.py, lines 49-96). The empty analysis
(`_empty_analysis`, lines 125-137) omits the `avg_vader_score` and
`avg_textblob_polarity` keys; the embedding carries them as 0 there. -/
structure ThreadAnalysis where
  total_messages : ℕ
  positive_count : ℕ
  negative_count : ℕ
  neutral_count : ℕ
  positive_ratio : ℚ
  negative_ratio : ℚ
  avg_sentiment : ℚ
  avg_vader_score : ℚ
  avg_textblob_polarity : ℚ
  overall_sentiment : String
  engagement_level : String
deriving DecidableEq, Repr

/-- `DiscordAnalyzer._empty_analysis`
(src/data_collection/discord_analyzer.py, lines 125-137). -/
def empty_analysis : ThreadAnalysis :=
  { total_messages := 0
    positive_count := 0
    negative_count := 0
    neutral_count := 0
    positive_ratio := 0
    negative_ratio := 0
    avg_sentiment := 0
    avg_vader_score := 0
    avg_textblob_polarity := 0
    overall_sentiment := "neutral"
    engagement_level := "none" }

/-- The per-message filter of `analyze_thread` (line 61):
`if not text or len(text) < 5: continue` keeps a message exactly when its
raw (untrimmed) text has length at least 5. -/
def keepMessage (m : DiscordMessage) : Bool :=
  !(DiscordMessage.content m == "" || (DiscordMessage.content m).length < 5)

/-- `DiscordAnalyzer.analyze_thread`
(src/data_collection/discord_analyzer.py, lines 49-96). The loop is modelled
as filter-then-map; the `else` branch of the label tally counts every
sentiment that is neither "positive" nor "negative". -/
def analyze_thread ( v : VaderModel) ( b : BlobModel)
    (messages : List DiscordMessage) : ThreadAnalysis :=
  if messages = [] then empty_analysis
  else
    let kept := messages.filter keepMessage
    let sentiments := kept.map (fun m =>
      analyze_sentiment v b (DiscordMessage.content m))
    let positive_count := sentiments.countP (fun s =>
      DiscordScore.sentiment s == "positive")
    let negative_count := sentiments.countP (fun s =>
      DiscordScore.sentiment s == "negative")
    let neutral_count := sentiments.countP (fun s =>
      DiscordScore.sentiment s != "positive" &&
        DiscordScore.sentiment s != "negative")
    if sentiments = [] then empty_analysis
    else
      let avg_vader := listMean (sentiments.map DiscordScore.vader_compound)
      let avg_textblob := listMean
        (sentiments.map DiscordScore.textblob_polarity)
      let avg_combined := listMean
        (sentiments.map DiscordScore.combined_score)
      let total_messages := sentiments.length
      { total_messages := total_messages
        positive_count := positive_count
        negative_count := negative_count
        neutral_count := neutral_count
        positive_ratio := (positive_count : ℚ) / (total_messages : ℚ)
        negative_ratio := (negative_count : ℚ) / (total_messages : ℚ)
        avg_sentiment := avg_combined
        avg_vader_score := avg_vader
        avg_textblob_polarity := avg_textblob
        overall_sentiment := classify_overall avg_combined
        engagement_level := calculate_engagement messages.length }

end DiscordAnalyzer

namespace DiscordSentimentAnalyzer

/-- The dict returned by `DiscordSentimentAnalyzer.analyze_message`
(src/backend/sentiment_service/discord_analyzer.py, lines 82-118). -/
structure MessageScore where
  sentiment_score : ℚ
  classification : String
  textblob_score : ℚ
  vader_compound : ℚ
  vader_positive : ℚ
  vader_negative : ℚ
  vader_neutral : ℚ
deriving DecidableEq, Repr

/-- `DiscordSentimentAnalyzer._combine_sentiment_scores`
(src/backend/sentiment_service/discord_analyzer.py, lines 68-80):
`(textblob_score * 0.3) + (vader_compound * 0.7)`. -/
def combine_sentiment_scores (textblob_score vader_compound : ℚ) : ℚ :=
  textblob_score * (3/10) + vader_compound * (7/10)

/-- `DiscordSentimentAnalyzer.analyze_message`
(src/backend/sentiment_service/discord_analyzer.py, lines 82-118). The model
wrappers `_analyze_with_textblob` / `_analyze_with_vader` only add
exception-to-zero fallbacks, which the pure model parameters subsume. Note
the strict ±0.1 classification thresholds. -/
def analyze_message ( v : VaderModel) ( b : BlobModel) (message : String) :
    MessageScore :=
  let textblob_score := (b message).1
  let vader_scores := v message
  let sentiment_score := combine_sentiment_scores textblob_score
    (VaderScores.compound vader_scores)
  let classification :=
    if sentiment_score > 1/10 then "positive"
    else if sentiment_score < -(1/10) then "negative"
    else "neutral"
  { sentiment_score := sentiment_score
    classification := classification
    textblob_score := textblob_score
    vader_compound := VaderScores.compound vader_scores
    vader_positive := VaderScores.pos vader_scores
    vader_negative := VaderScores.neg vader_scores
    vader_neutral := VaderScores.neu vader_scores }

end DiscordSentimentAnalyzer

namespace SentimentApi

/-- One row of the `sentiment_analysis` table as read by
`get_aggregated_sentiment` (src/backend/api/sentiment.py); only the fields
the handler consumes are carried (`analyzed_at` and the raw metadata are
passed through to presentation-only fields that are not modelled). -/
structure SentimentRow where
  source : String
  sentiment_score : ℚ
  message_count : ℕ
  positive_count : ℕ
  negative_count : ℕ
  neutral_count : ℕ
deriving DecidableEq, Repr

/-- `_get_sentiment_trend` (src/backend/api/sentiment.py, lines 384-403). -/
def get_sentiment_trend (sentiment_score : ℚ) : String :=
  if sentiment_score ≥ 1/2 then "Very Positive"
  else if sentiment_score ≥ 1/5 then "Positive"
  else if sentiment_score ≥ -(1/5) then "Neutral"
  else if sentiment_score ≥ -(1/2) then "Negative"
  else "Very Negative"

/-- `total_messages = sum(s.get("message_count", 0) for s in response.data)`
(src/backend/api/sentiment.py, line 253). -/
def total_messages (rows : List SentimentRow) : ℕ :=
  (rows.map SentimentRow.message_count).sum

/-- `weighted_sentiment = sum(score * count) / total_messages if
total_messages > 0 else 0` (src/backend/api/sentiment.py, lines 259-262). -/
def weighted_sentiment (rows : List SentimentRow) : ℚ :=
  if 0 < total_messages rows then
    (rows.map (fun s =>
      SentimentRow.sentiment_score s * (SentimentRow.message_count s : ℚ))).sum
      / (total_messages rows : ℚ)
  else 0

/-- Python `round(x)` (banker's rounding: halves go to the even integer). -/
def pyRound (q : ℚ) : ℤ :=
  if q - Int.floor q < 1/2 then Int.floor q
  else if q - Int.floor q > 1/2 then Int.floor q + 1
  else if Int.floor q % 2 = 0 then Int.floor q else Int.floor q + 1

/-- Python `round(x, 4)`. -/
def round4 (q : ℚ) : ℚ := (pyRound (q * 10000) : ℚ) / 10000

/-- The result dict of `get_aggregated_sentiment`
(src/backend/api/sentiment.py, lines 282-293). `sources_count` is
`len(by_source)`, the number of distinct source values; the `by_source`
breakdown, `last_analyzed` and the disclaimer wrapper are presentation-only
and not modelled. -/
structure AggregatedSentimentResponse where
  proposal_id : String
  aggregated_sentiment_score : ℚ
  sentiment_trend : String
  total_messages_analyzed : ℕ
  positive_ratio : ℚ
  negative_ratio : ℚ
  neutral_ratio : ℚ
  sources_count : ℕ
deriving DecidableEq, Repr

/-- `get_aggregated_sentiment` (src/backend/api/sentiment.py, lines
218-300): the rows fetched for the proposal are the input; an empty fetch
raises HTTP 404 (`Except.error`), otherwise the aggregate is computed. -/
def get_aggregated_sentiment (proposal_id : String)
    (rows : List SentimentRow) : Except String AggregatedSentimentResponse :=
  if rows = [] then
    Except.error ("404: No sentiment data found for proposal " ++ proposal_id)
  else
    let tm := total_messages rows
    let total_positive := (rows.map SentimentRow.positive_count).sum
    let total_negative := (rows.map SentimentRow.negative_count).sum
    let total_neutral := (rows.map SentimentRow.neutral_count).sum
    let ws := weighted_sentiment rows
    Except.ok
      { proposal_id := proposal_id
        aggregated_sentiment_score := round4 ws
        sentiment_trend := get_sentiment_trend ws
        total_messages_analyzed := tm
        positive_ratio :=
          round4 (if 0 < tm then (total_positive : ℚ) / (tm : ℚ) else 0)
        negative_ratio :=
          round4 (if 0 < tm then (total_negative : ℚ) / (tm : ℚ) else 0)
        neutral_ratio :=
          round4 (if 0 < tm then (total_neutral : ℚ) / (tm : ℚ) else 0)
        sources_count := (firstOccurrences (rows.map SentimentRow.source)).length }

end SentimentApi

/-- A trivial concrete VADER model used for concrete instantiations. -/
def vZero : VaderModel := fun _ => { compound := 0, pos := 0, neu := 1, neg := 0 }

/-- A trivial concrete TextBlob model (polarity 0, subjectivity 0). -/
def bZero : BlobModel := fun _ => (0, 0)

/-- A concrete TextBlob model with polarity 1/2. -/
def bHalf : BlobModel := fun _ => ((1 : ℚ)/2, 0)

/-- A concrete VADER model rating every text at compound 1. -/
def vOne : VaderModel := fun _ => { compound := 1, pos := 1, neu := 0, neg := 0 }

/-- A concrete TextBlob model rating every text at polarity 1. -/
def bOne : BlobModel := fun _ => ((1 : ℚ), 0)

/-- A concrete per-message score with combined_score 1/2, as produced by the
engine on a text both models rate at 1/2. -/
def scoreA : CombinedSentimentEngine.SentimentScore :=
  { vader_compound := 1/2, vader_pos := 1/2, vader_neu := 1/2, vader_neg := 0
    textblob_polarity := 1/2, textblob_subjectivity := 0
    combined_score := 1/2, sentiment := "positive", confidence := 1/2 }

/-- The three-source scenario of the spec: `(avg_sentiment, message_count)` =
`(0.6, 10)`, `(-0.2, 5)`, `(0.0, 0)`. -/
def threeRows : List SentimentApi.SentimentRow :=
  [{ source := "discord", sentiment_score := 3/5, message_count := 10,
     positive_count := 8, negative_count := 1, neutral_count := 1 },
   { source := "forum", sentiment_score := -(1/5), message_count := 5,
     positive_count := 1, negative_count := 2, neutral_count := 2 },
   { source := "twitter", sentiment_score := 0, message_count := 0,
     positive_count := 0, negative_count := 0, neutral_count := 0 }]

/-- A stored row with zero messages: a genuine zero/neutral sentiment row,
as opposed to no row at all. -/
def zeroRow : SentimentApi.SentimentRow :=
  { source := "discord", sentiment_score := 0, message_count := 0,
    positive_count := 0, negative_count := 0, neutral_count := 0 }

/-- Three tweets with zero likes and retweets and non-neutral texts. -/
def zeroEngagementTweets : List TwitterSentimentAnalyzer.Tweet :=
  [{ text := "great proposal", author_id := some "a", likes := 0, retweets := 0 },
   { text := "terrible idea", author_id := some "b", likes := 0, retweets := 0 },
   { text := "love it", author_id := some "c", likes := 0, retweets := 0 }]

/-- The ±0.2 inclusive label thresholds of `CombinedSentimentEngine.analyze_text`,
characterised against the returned `combined_score` (holds in the
empty-text branch too, where the score is 0). -/
theorem engine_label_spec ( v : VaderModel) ( b : BlobModel) (t : String) :
    (CombinedSentimentEngine.SentimentScore.sentiment
        (CombinedSentimentEngine.analyze_text v b t) = "positive" ↔
      1/5 ≤ CombinedSentimentEngine.SentimentScore.combined_score
        (CombinedSentimentEngine.analyze_text v b t)) ∧
    (CombinedSentimentEngine.SentimentScore.sentiment
        (CombinedSentimentEngine.analyze_text v b t) = "negative" ↔
      CombinedSentimentEngine.SentimentScore.combined_score
        (CombinedSentimentEngine.analyze_text v b t) ≤ -(1/5)) ∧
    (CombinedSentimentEngine.SentimentScore.sentiment
        (CombinedSentimentEngine.analyze_text v b t) = "neutral" ↔
      (-(1/5) < CombinedSentimentEngine.SentimentScore.combined_score
          (CombinedSentimentEngine.analyze_text v b t) ∧
        CombinedSentimentEngine.SentimentScore.combined_score
          (CombinedSentimentEngine.analyze_text v b t) < 1/5)) := by
  unfold CombinedSentimentEngine.analyze_text
  by_cases hc : t = "" ∨ pyStrip t = []
  · simp only [hc, if_true, CombinedSentimentEngine.neutralScore]
    refine ⟨?_, ?_, ?_⟩ <;> simp
  · simp only [hc, if_false]
    split_ifs with h1 h2 <;>
      refine ⟨?_, ?_, ?_⟩ <;> simp <;>
      first
        | linarith
        | (intro hh; linarith)
        | (constructor <;> linarith)

/-- The ±0.2 inclusive thresholds of `DiscordAnalyzer.analyze_sentiment`
(the data_collection Discord analyzer), characterised against the returned
`combined_score`. -/
theorem discord_label_spec ( v : VaderModel) ( b : BlobModel) (t : String) :
    (DiscordAnalyzer.DiscordScore.sentiment
        (DiscordAnalyzer.analyze_sentiment v b t) = "positive" ↔
      1/5 ≤ DiscordAnalyzer.DiscordScore.combined_score
        (DiscordAnalyzer.analyze_sentiment v b t)) ∧
    (DiscordAnalyzer.DiscordScore.sentiment
        (DiscordAnalyzer.analyze_sentiment v b t) = "negative" ↔
      DiscordAnalyzer.DiscordScore.combined_score
        (DiscordAnalyzer.analyze_sentiment v b t) ≤ -(1/5)) ∧
    (DiscordAnalyzer.DiscordScore.sentiment
        (DiscordAnalyzer.analyze_sentiment v b t) = "neutral" ↔
      (-(1/5) < DiscordAnalyzer.DiscordScore.combined_score
          (DiscordAnalyzer.analyze_sentiment v b t) ∧
        DiscordAnalyzer.DiscordScore.combined_score
          (DiscordAnalyzer.analyze_sentiment v b t) < 1/5)) := by
  unfold DiscordAnalyzer.analyze_sentiment
  dsimp only
  split_ifs with h1 h2 <;>
    refine ⟨?_, ?_, ?_⟩ <;> simp <;>
    first
      | linarith
      | (intro hh; linarith)
      | (constructor <;> linarith)

/-- The strict ±0.1 thresholds of `DiscordSentimentAnalyzer.analyze_message`
(the backend Discord analyzer), characterised against the returned
`sentiment_score`. -/
theorem backend_discord_label_spec ( v : VaderModel) ( b : BlobModel)
    (t : String) :
    (DiscordSentimentAnalyzer.MessageScore.classification
        (DiscordSentimentAnalyzer.analyze_message v b t) = "positive" ↔
      1/10 < DiscordSentimentAnalyzer.MessageScore.sentiment_score
        (DiscordSentimentAnalyzer.analyze_message v b t)) ∧
    (DiscordSentimentAnalyzer.MessageScore.classification
        (DiscordSentimentAnalyzer.analyze_message v b t) = "negative" ↔
      DiscordSentimentAnalyzer.MessageScore.sentiment_score
        (DiscordSentimentAnalyzer.analyze_message v b t) < -(1/10)) ∧
    (DiscordSentimentAnalyzer.MessageScore.classification
        (DiscordSentimentAnalyzer.analyze_message v b t) = "neutral" ↔
      (-(1/10) ≤ DiscordSentimentAnalyzer.MessageScore.sentiment_score
          (DiscordSentimentAnalyzer.analyze_message v b t) ∧
        DiscordSentimentAnalyzer.MessageScore.sentiment_score
          (DiscordSentimentAnalyzer.analyze_message v b t) ≤ 1/10)) := by
  unfold DiscordSentimentAnalyzer.analyze_message
  dsimp only
  split_ifs with h1 h2 <;>
    refine ⟨?_, ?_, ?_⟩ <;> simp <;>
    first
      | linarith
      | (intro hh; linarith)
      | (constructor <;> linarith)

/-- C3: `CombinedSentimentEngine.analyze_text` never fails on degenerate
input: every empty or whitespace-only text (stripped text empty) yields the
fixed neutral score with `vader_neu = 1`, every other numeric field 0 and
label "neutral". -/
theorem C3_empty_text_neutral ( v : VaderModel) ( b : BlobModel)
    (text : String) (h : pyStrip text = []) :
    CombinedSentimentEngine.analyze_text v b text =
        CombinedSentimentEngine.neutralScore ∧
    CombinedSentimentEngine.SentimentScore.vader_neu
        (CombinedSentimentEngine.analyze_text v b text) = 1 ∧
    CombinedSentimentEngine.SentimentScore.vader_compound
        (CombinedSentimentEngine.analyze_text v b text) = 0 ∧
    CombinedSentimentEngine.SentimentScore.vader_pos
        (CombinedSentimentEngine.analyze_text v b text) = 0 ∧
    CombinedSentimentEngine.SentimentScore.vader_neg
        (CombinedSentimentEngine.analyze_text v b text) = 0 ∧
    CombinedSentimentEngine.SentimentScore.textblob_polarity
        (CombinedSentimentEngine.analyze_text v b text) = 0 ∧
    CombinedSentimentEngine.SentimentScore.textblob_subjectivity
        (CombinedSentimentEngine.analyze_text v b text) = 0 ∧
    CombinedSentimentEngine.SentimentScore.combined_score
        (CombinedSentimentEngine.analyze_text v b text) = 0 ∧
    CombinedSentimentEngine.SentimentScore.confidence
        (CombinedSentimentEngine.analyze_text v b text) = 0 ∧
    CombinedSentimentEngine.SentimentScore.sentiment
        (CombinedSentimentEngine.analyze_text v b text) = "neutral" := by
  have he : CombinedSentimentEngine.analyze_text v b text =
      CombinedSentimentEngine.neutralScore := by
    unfold CombinedSentimentEngine.analyze_text
    rw [if_pos (Or.inr h)]
  refine ⟨he, ?_, ?_, ?_, ?_, ?_, ?_, ?_, ?_, ?_⟩ <;> rw [he] <;> rfl

/-- Witness for C3 at the concrete whitespace-only text `"   "`. -/
theorem C3_witness :
    pyStrip "   " = [] ∧
    CombinedSentimentEngine.analyze_text vZero bZero "   " =
      CombinedSentimentEngine.neutralScore :=
  ⟨by decide, (C3_empty_text_neutral vZero bZero "   " (by decide)).1⟩

/-- C1 counterexample: with TextBlob polarity 1/2 and VADER compound 0, the
backend Discord analyzer (`DiscordSentimentAnalyzer.analyze_message`)
computes `combined_score = 1/2 * 0.3 + 0 * 0.7 = 0.15`, which lies strictly
inside the claimed ±0.2 dead band (so the claim requires the label
"neutral"), yet the code classifies it "positive": its thresholds are the
strict ±0.1, not the claimed inclusive ±0.2. -/
theorem C1_counterexample :
    DiscordSentimentAnalyzer.MessageScore.sentiment_score
        (DiscordSentimentAnalyzer.analyze_message vZero bHalf "some text") =
      3/20 ∧
    ¬((1 : ℚ)/5 ≤ 3/20) ∧
    ¬((3 : ℚ)/20 ≤ -(1/5)) ∧
    DiscordSentimentAnalyzer.MessageScore.classification
        (DiscordSentimentAnalyzer.analyze_message vZero bHalf "some text") =
      "positive" := by
  refine ⟨?_, by norm_num, by norm_num, ?_⟩
  · norm_num [DiscordSentimentAnalyzer.analyze_message,
      DiscordSentimentAnalyzer.combine_sentiment_scores, vZero, bHalf]
  · norm_num [DiscordSentimentAnalyzer.analyze_message,
      DiscordSentimentAnalyzer.combine_sentiment_scores, vZero, bHalf]

/-- C1 amended: `CombinedSentimentEngine.analyze_text` and the
data_collection `DiscordAnalyzer.analyze_sentiment` label "positive" exactly
when `combined_score ≥ 0.2` (inclusive), "negative" exactly when
`≤ -0.2` (inclusive) and "neutral" otherwise; the backend
`DiscordSentimentAnalyzer.analyze_message`, however, classifies with the
strict ±0.1 thresholds: "positive" iff `combined_score > 0.1`, "negative"
iff `< -0.1`, "neutral" otherwise. -/
theorem C1_amended_label_thresholds ( v : VaderModel) ( b : BlobModel)
    (t : String) :
    ((CombinedSentimentEngine.SentimentScore.sentiment
        (CombinedSentimentEngine.analyze_text v b t) = "positive" ↔
      1/5 ≤ CombinedSentimentEngine.SentimentScore.combined_score
        (CombinedSentimentEngine.analyze_text v b t)) ∧
    (CombinedSentimentEngine.SentimentScore.sentiment
        (CombinedSentimentEngine.analyze_text v b t) = "negative" ↔
      CombinedSentimentEngine.SentimentScore.combined_score
        (CombinedSentimentEngine.analyze_text v b t) ≤ -(1/5)) ∧
    (CombinedSentimentEngine.SentimentScore.sentiment
        (CombinedSentimentEngine.analyze_text v b t) = "neutral" ↔
      (-(1/5) < CombinedSentimentEngine.SentimentScore.combined_score
          (CombinedSentimentEngine.analyze_text v b t) ∧
        CombinedSentimentEngine.SentimentScore.combined_score
          (CombinedSentimentEngine.analyze_text v b t) < 1/5))) ∧
    ((DiscordAnalyzer.DiscordScore.sentiment
        (DiscordAnalyzer.analyze_sentiment v b t) = "positive" ↔
      1/5 ≤ DiscordAnalyzer.DiscordScore.combined_score
        (DiscordAnalyzer.analyze_sentiment v b t)) ∧
    (DiscordAnalyzer.DiscordScore.sentiment
        (DiscordAnalyzer.analyze_sentiment v b t) = "negative" ↔
      DiscordAnalyzer.DiscordScore.combined_score
        (DiscordAnalyzer.analyze_sentiment v b t) ≤ -(1/5)) ∧
    (DiscordAnalyzer.DiscordScore.sentiment
        (DiscordAnalyzer.analyze_sentiment v b t) = "neutral" ↔
      (-(1/5) < DiscordAnalyzer.DiscordScore.combined_score
          (DiscordAnalyzer.analyze_sentiment v b t) ∧
        DiscordAnalyzer.DiscordScore.combined_score
          (DiscordAnalyzer.analyze_sentiment v b t) < 1/5))) ∧
    ((DiscordSentimentAnalyzer.MessageScore.classification
        (DiscordSentimentAnalyzer.analyze_message v b t) = "positive" ↔
      1/10 < DiscordSentimentAnalyzer.MessageScore.sentiment_score
        (DiscordSentimentAnalyzer.analyze_message v b t)) ∧
    (DiscordSentimentAnalyzer.MessageScore.classification
        (DiscordSentimentAnalyzer.analyze_message v b t) = "negative" ↔
      DiscordSentimentAnalyzer.MessageScore.sentiment_score
        (DiscordSentimentAnalyzer.analyze_message v b t) < -(1/10)) ∧
    (DiscordSentimentAnalyzer.MessageScore.classification
        (DiscordSentimentAnalyzer.analyze_message v b t) = "neutral" ↔
      (-(1/10) ≤ DiscordSentimentAnalyzer.MessageScore.sentiment_score
          (DiscordSentimentAnalyzer.analyze_message v b t) ∧
        DiscordSentimentAnalyzer.MessageScore.sentiment_score
          (DiscordSentimentAnalyzer.analyze_message v b t) ≤ 1/10))) :=
  ⟨engine_label_spec v b t, discord_label_spec v b t,
    backend_discord_label_spec v b t⟩

/-- C10: in every `analyze_text` result, `confidence = |combined_score|`
and the label is "neutral" exactly when `confidence < 0.2` (so a "positive"
or "negative" label always comes with `confidence ≥ 0.2`); moreover
`aggregate_scores` classifies any single-element score list as "declining",
because the strict `last_score > avg` comparison fails when the last score
equals the mean. -/
theorem C10_confidence_and_single_trend ( v : VaderModel) ( b : BlobModel)
    (t : String) (s : CombinedSentimentEngine.SentimentScore) :
    CombinedSentimentEngine.SentimentScore.confidence
        (CombinedSentimentEngine.analyze_text v b t) =
      |CombinedSentimentEngine.SentimentScore.combined_score
        (CombinedSentimentEngine.analyze_text v b t)| ∧
    (CombinedSentimentEngine.SentimentScore.sentiment
        (CombinedSentimentEngine.analyze_text v b t) = "neutral" ↔
      CombinedSentimentEngine.SentimentScore.confidence
        (CombinedSentimentEngine.analyze_text v b t) < 1/5) ∧
    CombinedSentimentEngine.AggregateScores.sentiment_trend
        (CombinedSentimentEngine.aggregate_scores [s]) = "declining" := by
  have hconf : CombinedSentimentEngine.SentimentScore.confidence
      (CombinedSentimentEngine.analyze_text v b t) =
    |CombinedSentimentEngine.SentimentScore.combined_score
      (CombinedSentimentEngine.analyze_text v b t)| := by
    unfold CombinedSentimentEngine.analyze_text
    by_cases hc : t = "" ∨ pyStrip t = [] <;>
      simp [hc, CombinedSentimentEngine.neutralScore]
  refine ⟨hconf, ?_, ?_⟩
  · rw [hconf, abs_lt]
    exact (engine_label_spec v b t).2.2
  · have hmean : listMean
        [CombinedSentimentEngine.SentimentScore.combined_score s] =
      CombinedSentimentEngine.SentimentScore.combined_score s := by
      simp [listMean]
    simp [CombinedSentimentEngine.aggregate_scores, hmean]

/-- Every label emitted by `analyze_text` is one of the three. -/
theorem analyze_text_label_cases ( v : VaderModel) ( b : BlobModel)
    (t : String) :
    CombinedSentimentEngine.SentimentScore.sentiment
        (CombinedSentimentEngine.analyze_text v b t) = "positive" ∨
    CombinedSentimentEngine.SentimentScore.sentiment
        (CombinedSentimentEngine.analyze_text v b t) = "negative" ∨
    CombinedSentimentEngine.SentimentScore.sentiment
        (CombinedSentimentEngine.analyze_text v b t) = "neutral" := by
  unfold CombinedSentimentEngine.analyze_text
  by_cases hc : t = "" ∨ pyStrip t = []
  · simp [hc, CombinedSentimentEngine.neutralScore]
  · simp only [hc, if_false]
    split_ifs <;> simp

/-- In a list of strings drawn from the three labels, the three counts sum
to the length. -/
theorem count_three_labels (l : List String)
    (h : ∀ x ∈ l, x = "positive" ∨ x = "negative" ∨ x = "neutral") :
    l.count "positive" + l.count "negative" + l.count "neutral" = l.length := by
  induction l with
  | nil => rfl
  | cons a tl ih =>
    have ha := h a (List.mem_cons_self a tl)
    have ih' := ih (fun x hx => h x (List.mem_cons_of_mem a hx))
    rcases ha with h1 | h1 | h1 <;> subst h1 <;>
      simp [List.count_cons] <;> omega

/-- C5: for every non-empty batch of texts scored through `analyze_text`,
the three ratios of `aggregate_scores` sum to exactly 1 and the three label
counts sum to the aggregated message count. -/
theorem C5_ratio_invariant ( v : VaderModel) ( b : BlobModel)
    (texts : List String) (h : texts ≠ []) :
    CombinedSentimentEngine.AggregateScores.positive_ratio
        (CombinedSentimentEngine.aggregate_scores
          (texts.map (CombinedSentimentEngine.analyze_text v b))) +
      CombinedSentimentEngine.AggregateScores.negative_ratio
        (CombinedSentimentEngine.aggregate_scores
          (texts.map (CombinedSentimentEngine.analyze_text v b))) +
      CombinedSentimentEngine.AggregateScores.neutral_ratio
        (CombinedSentimentEngine.aggregate_scores
          (texts.map (CombinedSentimentEngine.analyze_text v b))) = 1 ∧
    ((texts.map (CombinedSentimentEngine.analyze_text v b)).map
        CombinedSentimentEngine.SentimentScore.sentiment).count "positive" +
      ((texts.map (CombinedSentimentEngine.analyze_text v b)).map
        CombinedSentimentEngine.SentimentScore.sentiment).count "negative" +
      ((texts.map (CombinedSentimentEngine.analyze_text v b)).map
        CombinedSentimentEngine.SentimentScore.sentiment).count "neutral" =
      CombinedSentimentEngine.AggregateScores.total_messages
        (CombinedSentimentEngine.aggregate_scores
          (texts.map (CombinedSentimentEngine.analyze_text v b))) := by
  have hne : texts.map (CombinedSentimentEngine.analyze_text v b) ≠ [] := by
    simpa using h
  have hmem : ∀ x ∈ (texts.map (CombinedSentimentEngine.analyze_text v b)).map
      CombinedSentimentEngine.SentimentScore.sentiment,
      x = "positive" ∨ x = "negative" ∨ x = "neutral" := by
    intro x hx
    obtain ⟨sc, hsc, rfl⟩ := List.mem_map.mp hx
    obtain ⟨t, _, rfl⟩ := List.mem_map.mp hsc
    exact analyze_text_label_cases v b t
  have hcount := count_three_labels _ hmem
  have hlen0 : ((texts.map (CombinedSentimentEngine.analyze_text v b)).map
      CombinedSentimentEngine.SentimentScore.sentiment).length ≠ 0 := by
    simpa using h
  simp only [CombinedSentimentEngine.aggregate_scores, if_neg hne]
  refine ⟨?_, hcount⟩
  rw [div_add_div_same, div_add_div_same]
  rw [show (((texts.map (CombinedSentimentEngine.analyze_text v b)).map
        CombinedSentimentEngine.SentimentScore.sentiment).count "positive" : ℚ) +
      (((texts.map (CombinedSentimentEngine.analyze_text v b)).map
        CombinedSentimentEngine.SentimentScore.sentiment).count "negative" : ℚ) +
      (((texts.map (CombinedSentimentEngine.analyze_text v b)).map
        CombinedSentimentEngine.SentimentScore.sentiment).count "neutral" : ℚ) =
      (((texts.map (CombinedSentimentEngine.analyze_text v b)).map
        CombinedSentimentEngine.SentimentScore.sentiment).length : ℚ) from by
    exact_mod_cast congrArg (Nat.cast : ℕ → ℚ) hcount]
  exact div_self (Nat.cast_ne_zero.mpr hlen0)

/-- Witness for C5 at the concrete one-element batch `[""]` (scored as the
fixed neutral score). -/
theorem C5_witness :
    ([""] : List String) ≠ [] ∧
    (CombinedSentimentEngine.AggregateScores.positive_ratio
        (CombinedSentimentEngine.aggregate_scores
          (([""] : List String).map
            (CombinedSentimentEngine.analyze_text vZero bZero))) +
      CombinedSentimentEngine.AggregateScores.negative_ratio
        (CombinedSentimentEngine.aggregate_scores
          (([""] : List String).map
            (CombinedSentimentEngine.analyze_text vZero bZero))) +
      CombinedSentimentEngine.AggregateScores.neutral_ratio
        (CombinedSentimentEngine.aggregate_scores
          (([""] : List String).map
            (CombinedSentimentEngine.analyze_text vZero bZero))) = 1) :=
  ⟨by decide, (C5_ratio_invariant vZero bZero [""] (by decide)).1⟩

/-- C9: `aggregate_scores` is order-insensitive in its statistical fields:
any permutation of the score list leaves `avg_sentiment`, the (squared)
`std_sentiment`, the three ratios and `total_messages` unchanged (only the
trend-direction signal, which reads the last element, may depend on order). -/
theorem C9_perm_invariant
    (scores scores' : List CombinedSentimentEngine.SentimentScore)
    (hp : scores.Perm scores') :
    CombinedSentimentEngine.AggregateScores.avg_sentiment
        (CombinedSentimentEngine.aggregate_scores scores) =
      CombinedSentimentEngine.AggregateScores.avg_sentiment
        (CombinedSentimentEngine.aggregate_scores scores') ∧
    CombinedSentimentEngine.AggregateScores.std_sentiment_sq
        (CombinedSentimentEngine.aggregate_scores scores) =
      CombinedSentimentEngine.AggregateScores.std_sentiment_sq
        (CombinedSentimentEngine.aggregate_scores scores') ∧
    CombinedSentimentEngine.AggregateScores.positive_ratio
        (CombinedSentimentEngine.aggregate_scores scores) =
      CombinedSentimentEngine.AggregateScores.positive_ratio
        (CombinedSentimentEngine.aggregate_scores scores') ∧
    CombinedSentimentEngine.AggregateScores.negative_ratio
        (CombinedSentimentEngine.aggregate_scores scores) =
      CombinedSentimentEngine.AggregateScores.negative_ratio
        (CombinedSentimentEngine.aggregate_scores scores') ∧
    CombinedSentimentEngine.AggregateScores.neutral_ratio
        (CombinedSentimentEngine.aggregate_scores scores) =
      CombinedSentimentEngine.AggregateScores.neutral_ratio
        (CombinedSentimentEngine.aggregate_scores scores') ∧
    CombinedSentimentEngine.AggregateScores.total_messages
        (CombinedSentimentEngine.aggregate_scores scores) =
      CombinedSentimentEngine.AggregateScores.total_messages
        (CombinedSentimentEngine.aggregate_scores scores') := by
  by_cases hnil : scores = []
  · subst hnil
    have hnil' : scores' = [] := hp.symm.eq_nil
    subst hnil'
    exact ⟨rfl, rfl, rfl, rfl, rfl, rfl⟩
  · have hnil' : scores' ≠ [] := fun hh => hnil (hh ▸ hp).eq_nil
    have hlen : scores.length = scores'.length := hp.length_eq
    have hpm : (scores.map
        CombinedSentimentEngine.SentimentScore.combined_score).Perm
        (scores'.map CombinedSentimentEngine.SentimentScore.combined_score) :=
      hp.map _
    have hps : (scores.map
        CombinedSentimentEngine.SentimentScore.sentiment).Perm
        (scores'.map CombinedSentimentEngine.SentimentScore.sentiment) :=
      hp.map _
    have hmean : listMean
        (scores.map CombinedSentimentEngine.SentimentScore.combined_score) =
      listMean
        (scores'.map CombinedSentimentEngine.SentimentScore.combined_score) := by
      unfold listMean
      rw [hpm.sum_eq, hpm.length_eq]
    have hvar : listVarPop
        (scores.map CombinedSentimentEngine.SentimentScore.combined_score) =
      listVarPop
        (scores'.map CombinedSentimentEngine.SentimentScore.combined_score) := by
      unfold listVarPop
      rw [hmean]
      unfold listMean
      rw [(hpm.map _).sum_eq, (hpm.map _).length_eq]
    have hcount : ∀ a : String,
        (scores.map CombinedSentimentEngine.SentimentScore.sentiment).count a =
        (scores'.map CombinedSentimentEngine.SentimentScore.sentiment).count a :=
      fun a => hps.count_eq a
    simp only [CombinedSentimentEngine.aggregate_scores, if_neg hnil,
      if_neg hnil']
    refine ⟨hmean, hvar, ?_, ?_, ?_, ?_⟩ <;>
      simp only [hcount, List.length_map, hlen]

/-- Witness for C9 at a concrete two-element swap. -/
theorem C9_witness :
    ([scoreA, CombinedSentimentEngine.neutralScore]).Perm
        [CombinedSentimentEngine.neutralScore, scoreA] ∧
    CombinedSentimentEngine.AggregateScores.avg_sentiment
        (CombinedSentimentEngine.aggregate_scores
          [scoreA, CombinedSentimentEngine.neutralScore]) =
      CombinedSentimentEngine.AggregateScores.avg_sentiment
        (CombinedSentimentEngine.aggregate_scores
          [CombinedSentimentEngine.neutralScore, scoreA]) :=
  ⟨List.Perm.swap CombinedSentimentEngine.neutralScore scoreA [],
    (C9_perm_invariant _ _
      (List.Perm.swap CombinedSentimentEngine.neutralScore scoreA [])).1⟩

/-- C6: `aggregate_messages([])` raises no exception in any analyzer and
returns the canonical empty aggregate: all counts and ratios 0,
`avg_sentiment` 0 and empty/zero source-specific extras (`unique_authors =
0`, `top_positive_authors = []`, `influential_accounts = []`; the
data_collection Discord thread analyzer returns its `_empty_analysis`). -/
theorem C6_empty_input_aggregates ( v : VaderModel) ( b : BlobModel) :
    ForumSentimentAnalyzer.aggregate_messages v b [] =
      { base := CombinedSentimentEngine.emptyAggregate
        unique_authors := 0
        avg_posts_per_author := 0
        top_positive_authors := [] } ∧
    TwitterSentimentAnalyzer.aggregate_messages v b [] =
      { avg_sentiment := 0, std_sentiment_sq := 0, positive_ratio := 0,
        negative_ratio := 0, neutral_ratio := 0, total_tweets := 0,
        total_engagement := 0, avg_engagement_per_tweet := 0,
        influential_accounts := [] } ∧
    DiscordAnalyzer.analyze_thread v b [] = DiscordAnalyzer.empty_analysis :=
  ⟨rfl, rfl, rfl⟩

/-- If every engagement in the batch is zero, the engagement-weighted score
sum collapses to zero term by term. -/
theorem zipWith_zero_weights_sum (cs : List ℚ) (es : List ℕ) (m : ℕ)
    (h : ∀ e ∈ es, e = 0) :
    (List.zipWith (fun c w => c * w) cs
      (es.map (fun (e : ℕ) => (e : ℚ) / (m : ℚ)))).sum = 0 := by
  induction cs generalizing es with
  | nil => simp
  | cons c cs ih =>
    cases es with
    | nil => simp
    | cons e es =>
      have he : e = 0 := h e (List.mem_cons_self e es)
      have h' : ∀ x ∈ es, x = 0 := fun x hx => h x (List.mem_cons_of_mem e hx)
      subst he
      simp only [List.map_cons, List.zipWith_cons_cons, List.sum_cons,
        Nat.cast_zero, zero_div, mul_zero, zero_add]
      exact ih es h'

/-- C7: when every tweet in the batch has `likes + retweets = 0`, every
weight `engagement / max_engagement` is 0, so the engagement-weighted
`avg_sentiment` of the Twitter analyzer is exactly 0, regardless of the
individual combined scores. -/
theorem C7_zero_engagement ( v : VaderModel) ( b : BlobModel)
    (tweets : List TwitterSentimentAnalyzer.Tweet)
    (h : ∀ t ∈ tweets, TwitterSentimentAnalyzer.engagement t = 0) :
    TwitterSentimentAnalyzer.TwitterAggregate.avg_sentiment
        (TwitterSentimentAnalyzer.aggregate_messages v b tweets) = 0 := by
  by_cases hnil : tweets = []
  · subst hnil; rfl
  · have hz : ∀ e ∈ tweets.map TwitterSentimentAnalyzer.engagement, e = 0 := by
      intro e he
      obtain ⟨t, ht, rfl⟩ := List.mem_map.mp he
      exact h t ht
    simp only [TwitterSentimentAnalyzer.aggregate_messages, if_neg hnil]
    unfold listMean
    rw [zipWith_zero_weights_sum _ _ _ hz]
    exact zero_div _

/-- Witness for C7: three tweets with zero likes/retweets under models that
rate every text at combined score 1. -/
theorem C7_witness :
    (∀ t ∈ zeroEngagementTweets,
      TwitterSentimentAnalyzer.engagement t = 0) ∧
    TwitterSentimentAnalyzer.TwitterAggregate.avg_sentiment
        (TwitterSentimentAnalyzer.aggregate_messages vOne bOne
          zeroEngagementTweets) = 0 :=
  ⟨by decide, C7_zero_engagement vOne bOne zeroEngagementTweets (by decide)⟩

/-- C4 counterexample: the forum analyzer applies no minimum-length filter.
The single message with empty content (stripped length 0, below every
possible 3–5 character minimum) is nevertheless scored and counted:
`aggregate_messages` reports 1 message, not the 0 the claim requires. -/
theorem C4_counterexample :
    (pyStrip "").length < 3 ∧
    CombinedSentimentEngine.AggregateScores.total_messages
        (ForumSentimentAnalyzer.ForumAggregate.base
          (ForumSentimentAnalyzer.aggregate_messages vZero bZero
            [{ content := "", author := none }])) = 1 := by
  refine ⟨by decide, ?_⟩
  simp only [ForumSentimentAnalyzer.aggregate_messages]
  rw [if_neg (by simp)]
  simp [CombinedSentimentEngine.aggregate_scores]

/-- C4 amended: only the Discord analyzers filter short messages — the
data_collection `DiscordAnalyzer.analyze_thread` drops messages whose raw
(untrimmed) text is shorter than 5 characters and averages `combined_score`
over the survivors only; the Forum and Twitter analyzers apply no length
filter at all, scoring and counting every input message, however short. -/
theorem C4_amended_filtering ( v : VaderModel) ( b : BlobModel)
    (messages : List DiscordAnalyzer.DiscordMessage)
    (fmessages : List ForumSentimentAnalyzer.ForumMessage)
    (tweets : List TwitterSentimentAnalyzer.Tweet)
    (h : messages.filter DiscordAnalyzer.keepMessage ≠ []) :
    DiscordAnalyzer.ThreadAnalysis.total_messages
        (DiscordAnalyzer.analyze_thread v b messages) =
      (messages.filter DiscordAnalyzer.keepMessage).length ∧
    DiscordAnalyzer.ThreadAnalysis.avg_sentiment
        (DiscordAnalyzer.analyze_thread v b messages) =
      listMean ((messages.filter DiscordAnalyzer.keepMessage).map
        (fun m => DiscordAnalyzer.DiscordScore.combined_score
          (DiscordAnalyzer.analyze_sentiment v b
            (DiscordAnalyzer.DiscordMessage.content m)))) ∧
    CombinedSentimentEngine.AggregateScores.total_messages
        (ForumSentimentAnalyzer.ForumAggregate.base
          (ForumSentimentAnalyzer.aggregate_messages v b fmessages)) =
      fmessages.length ∧
    TwitterSentimentAnalyzer.TwitterAggregate.total_tweets
        (TwitterSentimentAnalyzer.aggregate_messages v b tweets) =
      tweets.length := by
  have hmne : messages ≠ [] := by
    intro hh
    subst hh
    exact h rfl
  have hsne : (messages.filter DiscordAnalyzer.keepMessage).map (fun m =>
      DiscordAnalyzer.analyze_sentiment v b
        (DiscordAnalyzer.DiscordMessage.content m)) ≠ [] := by
    simpa using h
  refine ⟨?_, ?_, ?_, ?_⟩
  · simp only [DiscordAnalyzer.analyze_thread, if_neg hmne, if_neg hsne]
    simp
  · simp only [DiscordAnalyzer.analyze_thread, if_neg hmne, if_neg hsne]
    rw [List.map_map]
    rfl
  · by_cases hf : fmessages = []
    · subst hf; rfl
    · simp only [ForumSentimentAnalyzer.aggregate_messages, if_neg hf]
      have hfm : fmessages.map (fun m => CombinedSentimentEngine.analyze_text
          v b (ForumSentimentAnalyzer.ForumMessage.content m)) ≠ [] := by
        simpa using hf
      simp [CombinedSentimentEngine.aggregate_scores, hf]
  · by_cases ht : tweets = []
    · subst ht; rfl
    · simp only [TwitterSentimentAnalyzer.aggregate_messages, if_neg ht]
      simp

/-- Witness for C4 (amended) at one Discord message of raw length 5. -/
theorem C4_witness :
    ([({ content := "hello" } : DiscordAnalyzer.DiscordMessage)].filter
        DiscordAnalyzer.keepMessage ≠ []) ∧
    DiscordAnalyzer.ThreadAnalysis.total_messages
        (DiscordAnalyzer.analyze_thread vZero bZero
          [{ content := "hello" }]) =
      ([({ content := "hello" } : DiscordAnalyzer.DiscordMessage)].filter
        DiscordAnalyzer.keepMessage).length :=
  ⟨by decide,
    (C4_amended_filtering vZero bZero [{ content := "hello" }] [] []
      (by decide)).1⟩

/-- The five fixed bands of `_get_sentiment_trend`, characterised as
intervals. -/
theorem get_sentiment_trend_spec (s : ℚ) :
    (SentimentApi.get_sentiment_trend s = "Very Positive" ↔ 1/2 ≤ s) ∧
    (SentimentApi.get_sentiment_trend s = "Positive" ↔ 1/5 ≤ s ∧ s < 1/2) ∧
    (SentimentApi.get_sentiment_trend s = "Neutral" ↔
      -(1/5) ≤ s ∧ s < 1/5) ∧
    (SentimentApi.get_sentiment_trend s = "Negative" ↔
      -(1/2) ≤ s ∧ s < -(1/5)) ∧
    (SentimentApi.get_sentiment_trend s = "Very Negative" ↔ s < -(1/2)) := by
  unfold SentimentApi.get_sentiment_trend
  split_ifs with h1 h2 h3 h4 <;>
    refine ⟨?_, ?_, ?_, ?_, ?_⟩ <;> simp <;>
    first
      | linarith
      | (intro hh; linarith)
      | (constructor <;> linarith)

/-- The concrete three-source scenario evaluates to 1/3. -/
theorem threeRows_weighted :
    SentimentApi.weighted_sentiment threeRows = 1/3 := by
  norm_num [SentimentApi.weighted_sentiment, SentimentApi.total_messages,
    threeRows]

/-- C2: with a positive total message count, the cross-source aggregate is
the message-count-weighted mean `Σ(score·count)/total`; the five-band trend
label follows the fixed bands; and on the concrete three-source scenario
`(0.6,10), (-0.2,5), (0.0,0)` the aggregate is exactly 1/3 = 0.333… with
trend label "Positive". -/
theorem C2_weighted_mean_and_trend (rows : List SentimentApi.SentimentRow)
    (h : 0 < SentimentApi.total_messages rows) (s : ℚ) :
    SentimentApi.weighted_sentiment rows =
      (rows.map (fun r => SentimentApi.SentimentRow.sentiment_score r *
        (SentimentApi.SentimentRow.message_count r : ℚ))).sum /
        (SentimentApi.total_messages rows : ℚ) ∧
    (SentimentApi.get_sentiment_trend s = "Very Positive" ↔ 1/2 ≤ s) ∧
    (SentimentApi.get_sentiment_trend s = "Positive" ↔ 1/5 ≤ s ∧ s < 1/2) ∧
    (SentimentApi.get_sentiment_trend s = "Neutral" ↔
      -(1/5) ≤ s ∧ s < 1/5) ∧
    (SentimentApi.get_sentiment_trend s = "Negative" ↔
      -(1/2) ≤ s ∧ s < -(1/5)) ∧
    (SentimentApi.get_sentiment_trend s = "Very Negative" ↔ s < -(1/2)) ∧
    SentimentApi.weighted_sentiment threeRows = 1/3 ∧
    SentimentApi.get_sentiment_trend
      (SentimentApi.weighted_sentiment threeRows) = "Positive" := by
  obtain ⟨t1, t2, t3, t4, t5⟩ := get_sentiment_trend_spec s
  refine ⟨?_, t1, t2, t3, t4, t5, threeRows_weighted, ?_⟩
  · unfold SentimentApi.weighted_sentiment
    rw [if_pos h]
  · rw [threeRows_weighted]
    norm_num [SentimentApi.get_sentiment_trend]

/-- Witness for C2 at the concrete three-source scenario. -/
theorem C2_witness :
    0 < SentimentApi.total_messages threeRows ∧
    SentimentApi.weighted_sentiment threeRows = 1/3 ∧
    SentimentApi.get_sentiment_trend
      (SentimentApi.weighted_sentiment threeRows) = "Positive" :=
  ⟨by norm_num [SentimentApi.total_messages, threeRows],
   (C2_weighted_mean_and_trend threeRows
     (by norm_num [SentimentApi.total_messages, threeRows]) 0).2.2.2.2.2.2.1,
   (C2_weighted_mean_and_trend threeRows
     (by norm_num [SentimentApi.total_messages, threeRows]) 0).2.2.2.2.2.2.2⟩

/-- C8: an empty fetch (no sentiment rows at all) yields the explicit 404
error, while any non-empty row set — including a single stored row with
zero messages and zero score — yields a successful response; in particular
the genuine zero/neutral result (`Except.ok` with aggregated score 0 and
trend "Neutral") is distinct from the no-data state (`Except.error`), so
the aggregation never silently converts missing data into a neutral zero. -/
theorem C8_no_data_is_error (proposal_id : String)
    (r : SentimentApi.SentimentRow)
    (rows : List SentimentApi.SentimentRow) :
    SentimentApi.get_aggregated_sentiment proposal_id [] =
      Except.error
        ("404: No sentiment data found for proposal " ++ proposal_id) ∧
    (∃ resp, SentimentApi.get_aggregated_sentiment proposal_id (r :: rows) =
      Except.ok resp) ∧
    SentimentApi.get_aggregated_sentiment "p" [zeroRow] =
      Except.ok
        { proposal_id := "p", aggregated_sentiment_score := 0,
          sentiment_trend := "Neutral", total_messages_analyzed := 0,
          positive_ratio := 0, negative_ratio := 0, neutral_ratio := 0,
          sources_count := 1 } := by
  refine ⟨rfl, ?_, ?_⟩
  · rw [SentimentApi.get_aggregated_sentiment, if_neg (by simp)]
    exact ⟨_, rfl⟩
  · simp [SentimentApi.get_aggregated_sentiment, SentimentApi.total_messages,
      SentimentApi.weighted_sentiment, SentimentApi.round4,
      SentimentApi.pyRound, SentimentApi.get_sentiment_trend, zeroRow,
      firstOccurrences]
    norm_num
